import Mathlib

/-!
Shallow embedding of the turbo-v2 distributed code-judging cluster
(master + worker), translated from the Rust sources
`master/src/{state,grpc,http,scheduler}.rs` and `worker/src/docker.rs`.

Modelling conventions:
* `DashMap` maps are association lists in iteration order; `mpsc`/`oneshot`
  senders are opaque `Nat` tokens;
* `f32` load figures are rationals (no NaN, so `partial_cmp` is total,
  matching the code's `unwrap_or(Ordering::Equal)` fallback on real loads);
* container/IO effects are oracle inputs (per-test run outcomes) and
  emitted traces (dispatched worker commands, fired completion responses).
-/

/-- Check that the first character list is a leading segment of the second. -/
def leadsWith : List Char → List Char → Bool
  | [], _ => true
  | _ :: _, [] => false
  | a :: xs, b :: ys => a == b && leadsWith xs ys

/-- Check that the first character list occurs contiguously inside the second. -/
def hasSub (n : List Char) : List Char → Bool
  | [] => n.isEmpty
  | c :: t => leadsWith n (c :: t) || hasSub n t

/-- Model of Rust `str::contains` (literal substring containment). -/
def strContains (hay needle : String) : Bool :=
  hasSub needle.data hay.data

/-- Model of Rust `str::trim`: strip leading and trailing whitespace. -/
def rustTrim (s : String) : String :=
  ⟨((s.data.dropWhile Char.isWhitespace).reverse.dropWhile Char.isWhitespace).reverse⟩

/-- Wire message `TestCase` (proto): one test case of a submission. -/
structure TestCase where
  id : String
  input : String
  expected_output : String
deriving DecidableEq

/-- Wire message `TestCaseResult` (proto): one per-test verdict record. -/
structure TestCaseResult where
  test_id : String
  status : String
  stdout : String
  stderr : String
  time_ms : Int
  memory_bytes : Int
deriving DecidableEq

/-- Wire message `CompileResult` (proto), as built in `worker/src/docker.rs`. -/
structure CompileResult where
  job_id : String
  success : Bool
  compiler_output : String
  binary_payload : List Nat
  duration_ms : Int
deriving DecidableEq

/-- Wire message `ResourceMetrics` (proto). -/
structure ResourceMetrics where
  peak_ram_bytes : Nat
  total_cpu_time_ms : Nat
deriving DecidableEq

/-- Wire message `BatchExecutionResult` (proto). -/
structure BatchExecutionResult where
  job_id : String
  batch_id : String
  worker_id : String
  results : List TestCaseResult
  metrics : Option ResourceMetrics
  system_error : String
deriving DecidableEq

/-- Wire message `Heartbeat` (proto): live worker metrics. -/
structure Heartbeat where
  worker_id : String
  cpu_load_percent : Rat
  ram_usage_mb : Nat
  active_tasks : Nat
deriving DecidableEq

/-- Wire message `CompileTask` (proto): master-to-worker compile command. -/
structure CompileTask where
  job_id : String
  language : String
  source_code : String
  flags : List String
deriving DecidableEq

/-- Payload of an `ExecuteBatchTask`: source code or compiled artifact. -/
inductive ExecPayload where
  | SourceCode (code : String)
  | BinaryArtifact (bytes : List Nat)
deriving DecidableEq

/-- Wire message `ExecuteBatchTask` (proto). -/
structure ExecuteBatchTask where
  job_id : String
  batch_id : String
  language : String
  payload : Option ExecPayload
  inputs : List TestCase
  time_limit_ms : Nat
  memory_limit_mb : Nat
deriving DecidableEq

/-- Wire message `MasterCommand` (proto): what the master pushes to a worker. -/
inductive MasterCommand where
  | Compile (task : CompileTask)
  | Execute (task : ExecuteBatchTask)
deriving DecidableEq

/-- Outcome of `DockerExecutor::run_with_input` for one test case:
`Ok((exit_code, stdout, stderr))` or `Err(message)`.  A tripped wall-clock
timeout surfaces as `Err` of `timeout_error_message` (docker.rs line 497). -/
inductive RunOutcome where
  | ok (exit_code : Int) (stdout : String) (stderr : String)
  | err (e : String)
deriving DecidableEq

/-- Error string produced when the wall-clock timeout trips (docker.rs 497). -/
def timeout_error_message : String := "Execution timeout"

/-- Verdict-assignment block of `execute_batch` (worker/src/docker.rs 391-434):
given a test case, the measured elapsed time and the run outcome, build the
`TestCaseResult` exactly as the per-test loop does. -/
def judge_test_case (tc : TestCase) (elapsed_ms : Int) (r : RunOutcome) : TestCaseResult :=
  match r with
  | RunOutcome.ok exit_code stdout stderr =>
      let is_mle := exit_code == 137 || strContains stdout "Killed"
        || strContains stderr "Killed" || strContains stderr "Out of memory"
      let status := if is_mle then "MLE"
        else if exit_code != 0 then "RE"
        else if rustTrim stdout == rustTrim tc.expected_output then "PASSED"
        else "FAILED"
      { test_id := tc.id, status := status, stdout := stdout, stderr := stderr,
        time_ms := elapsed_ms, memory_bytes := 0 }
  | RunOutcome.err e =>
      { test_id := tc.id, status := if strContains e "timeout" then "TLE" else "RE",
        stdout := "", stderr := e, time_ms := elapsed_ms, memory_bytes := 0 }

/-- Per-test results accumulated by `execute_batch` over its test-case loop,
with the container runs supplied as an oracle list of (elapsed, outcome). -/
def execute_batch_results (test_cases : List TestCase) (runs : List (Int × RunOutcome)) :
    List TestCaseResult :=
  (test_cases.zip runs).map fun p => judge_test_case p.1 p.2.1 p.2.2

/-- master/src/state.rs `JobState`. -/
inductive JobState where
  | Compiling
  | Executing (pending_batches : Nat)
  | Completed
deriving DecidableEq

/-- master/src/state.rs `FinalResponse`. -/
structure FinalResponse where
  job_id : String
  success : Bool
  results : List TestCaseResult
  compiler_output : Option String
  error : Option String
deriving DecidableEq

/-- master/src/state.rs `JobContext`; the oneshot responder is an opaque token. -/
structure JobContext where
  id : String
  language : String
  source_code : String
  total_test_cases : Nat
  results : List TestCaseResult
  state : JobState
  binary : Option (List Nat)
  compiler_output : Option String
  responder : Option Nat
  test_cases : List TestCase
  time_limit_ms : Nat
  memory_limit_mb : Nat
deriving DecidableEq

/-- master/src/state.rs `WorkerInfo`; the mpsc sender is an opaque token. -/
structure WorkerInfo where
  sender : Nat
  cpu_cores : Nat
  total_ram_mb : Nat
  tags : List String
  cpu_load_percent : Rat
  ram_usage_mb : Nat
  active_tasks : Nat
deriving DecidableEq

/-- master/src/state.rs `AppState`: worker registry and job map, modelled as
association lists in DashMap iteration order. -/
structure AppState where
  workers : List (String × WorkerInfo)
  jobs : List (String × JobContext)
deriving DecidableEq

/-- Map lookup (`DashMap::get`): first entry with the key. -/
def getA {α : Type} : List (String × α) → String → Option α
  | [], _ => none
  | p :: t, k => if p.1 = k then some p.2 else getA t k

/-- In-place update of existing entries (`DashMap::get_mut` write-back). -/
def setA {α : Type} : List (String × α) → String → α → List (String × α)
  | [], _, _ => []
  | p :: t, k, v => if p.1 = k then (p.1, v) :: setA t k v else p :: setA t k v

/-- Map insert (`DashMap::insert`): replace an existing entry, else append. -/
def insA {α : Type} (l : List (String × α)) (k : String) (v : α) : List (String × α) :=
  if (getA l k).isSome then setA l k v else l ++ [(k, v)]

/-- master/src/scheduler.rs `BATCH_SIZE`. -/
def BATCH_SIZE : Nat := 20

/-- master/src/scheduler.rs `create_batches`: `test_cases.chunks(BATCH_SIZE)`. -/
def create_batches (test_cases : List TestCase) : List (List TestCase) :=
  if h : test_cases = [] then []
  else test_cases.take BATCH_SIZE :: create_batches (test_cases.drop BATCH_SIZE)
termination_by test_cases.length
decreasing_by
  simp only [List.length_drop, BATCH_SIZE]
  have hpos : 0 < test_cases.length := List.length_pos.mpr h
  omega

/-- One step of the inline `min_by` fold used for least-loaded worker selection
(grpc.rs 171-180, http.rs 175-184): keep the first strictly-smaller load. -/
def minStep (acc : Option (String × WorkerInfo)) (p : String × WorkerInfo) :
    Option (String × WorkerInfo) :=
  match acc with
  | none => some p
  | some q => if p.2.cpu_load_percent < q.2.cpu_load_percent then some p else some q

/-- Least-loaded worker selection: `workers.iter().min_by(load).map(key)`.
`Iterator::min_by` returns the first minimal element on ties. -/
def minByLoad (ws : List (String × WorkerInfo)) : Option String :=
  (ws.foldl minStep none).map Prod.fst

/-- Entry transformer for the Heartbeat arm of `register_stream`
(grpc.rs 85-89): refresh the three live-metric fields of a matching entry. -/
def apply_heartbeat_entry (hb : Heartbeat) (p : String × WorkerInfo) : String × WorkerInfo :=
  if p.1 = hb.worker_id then
    (p.1, { p.2 with cpu_load_percent := hb.cpu_load_percent,
                     ram_usage_mb := hb.ram_usage_mb,
                     active_tasks := hb.active_tasks })
  else p

/-- Heartbeat arm of `register_stream` (grpc.rs 75-90): `workers.get_mut` and
update metrics if the entry exists; no other state is touched. -/
def handle_heartbeat (st : AppState) (hb : Heartbeat) : AppState :=
  { st with workers := st.workers.map (apply_heartbeat_entry hb) }

/-- grpc.rs `handle_compile_result` (136-207).  Returns the new state, the
dispatched worker commands and the fired completion responses (the function
never sends on a job's oneshot responder, hence the third component is
always empty). -/
def handle_compile_result (st : AppState) (result : CompileResult) :
    AppState × List (String × MasterCommand) × List FinalResponse :=
  match getA st.jobs result.job_id with
  | none => (st, [], [])
  | some job0 =>
    let job1 := { job0 with compiler_output := some result.compiler_output }
    if result.success then
      let job2 := { job1 with binary := some result.binary_payload,
                              state := JobState.Executing 1 }
      let st1 : AppState := { st with jobs := setA st.jobs result.job_id job2 }
      match minByLoad st1.workers with
      | some worker_id =>
          let task : ExecuteBatchTask :=
            { job_id := result.job_id, batch_id := "batch_1", language := job0.language,
              payload := some (ExecPayload.BinaryArtifact result.binary_payload),
              inputs := job0.test_cases, time_limit_ms := job0.time_limit_ms,
              memory_limit_mb := job0.memory_limit_mb }
          match getA st1.workers worker_id with
          | some _ => (st1, [(worker_id, MasterCommand.Execute task)], [])
          | none => (st1, [], [])
      | none => (st1, [], [])
    else
      ({ st with jobs := setA st.jobs result.job_id ({ job1 with state := JobState.Completed }) },
       [], [])

/-- grpc.rs `handle_batch_result` (209-244).  Returns the new state and the
completion responses fired on the job's oneshot responder. -/
def handle_batch_result (st : AppState) (result : BatchExecutionResult) :
    AppState × List FinalResponse :=
  match getA st.jobs result.job_id with
  | none => (st, [])
  | some job0 =>
    let job1 := { job0 with results := job0.results ++ result.results }
    match job1.state with
    | JobState.Executing pending_batches =>
        let pending := pending_batches - 1
        if pending = 0 then
          let job2 := { job1 with state := JobState.Completed }
          match job2.responder with
          | some _ =>
              let job3 := { job2 with responder := none }
              ({ st with jobs := setA st.jobs result.job_id job3 },
               [{ job_id := result.job_id, success := true, results := job3.results,
                  compiler_output := job3.compiler_output, error := none }])
          | none => ({ st with jobs := setA st.jobs result.job_id job2 }, [])
        else
          let job2 := { job1 with state := JobState.Executing pending }
          ({ st with jobs := setA st.jobs result.job_id job2 }, [])
    | _ => ({ st with jobs := setA st.jobs result.job_id job1 }, [])

/-- master/src/http.rs `TestCaseInput` (request-body test case). -/
structure TestCaseInput where
  id : String
  input : String
  expected_output : String
deriving DecidableEq

/-- master/src/http.rs `SubmitRequest` (after JSON deserialization, with the
serde defaults already applied). -/
structure SubmitRequest where
  language : String
  source_code : String
  test_cases : List TestCaseInput
  compiler_flags : List String
  time_limit_ms : Nat
  memory_limit_mb : Nat
deriving DecidableEq

/-- master/src/http.rs `SubmitResponse`. -/
structure SubmitResponse where
  job_id : String
  message : String
deriving DecidableEq

/-- master/src/http.rs `TestResultOutput`. -/
structure TestResultOutput where
  test_id : String
  status : String
  time_ms : Int
  memory_bytes : Int
  stdout : String
  stderr : String
deriving DecidableEq

/-- master/src/http.rs `StatusResponse`. -/
structure StatusResponse where
  job_id : String
  state : String
  results : List TestResultOutput
  compiler_output : Option String
  error : Option String
deriving DecidableEq

/-- master/src/http.rs `impl From<TestCaseResult> for TestResultOutput`. -/
def toTestResultOutput (r : TestCaseResult) : TestResultOutput :=
  { test_id := r.test_id, status := r.status, time_ms := r.time_ms,
    memory_bytes := r.memory_bytes, stdout := r.stdout, stderr := r.stderr }

/-- Languages treated as interpreted by `submit_job` (http.rs 127-130). -/
def interpreted_languages : List String :=
  ["python", "python3", "javascript", "js", "node", "ruby"]

/-- master/src/http.rs `submit_job` (102-245).  `job_id` stands for the fresh
`Uuid::new_v4()`.  Returns the HTTP status code, the response body, the new
state and the dispatched worker commands. -/
def submit_job (st : AppState) (job_id : String) (req : SubmitRequest) :
    Nat × SubmitResponse × AppState × List (String × MasterCommand) :=
  if st.workers.isEmpty then
    (503, { job_id := job_id, message := "No workers available" }, st, [])
  else
    let is_interpreted := interpreted_languages.contains req.language.toLower
    let proto_test_cases := req.test_cases.map fun tc =>
      ({ id := tc.id, input := tc.input, expected_output := tc.expected_output } : TestCase)
    let initial_state := if is_interpreted then JobState.Executing 1 else JobState.Compiling
    let job : JobContext :=
      { id := job_id, language := req.language, source_code := req.source_code,
        total_test_cases := req.test_cases.length, results := [], state := initial_state,
        binary := none, compiler_output := none, responder := some 0,
        test_cases := proto_test_cases, time_limit_ms := req.time_limit_ms,
        memory_limit_mb := req.memory_limit_mb }
    let st1 : AppState := { st with jobs := insA st.jobs job_id job }
    match minByLoad st1.workers with
    | none => (503, { job_id := job_id, message := "No workers available" }, st1, [])
    | some worker_id =>
        let cmd := if is_interpreted then
            MasterCommand.Execute
              { job_id := job_id, batch_id := "batch_1", language := req.language,
                payload := some (ExecPayload.SourceCode req.source_code),
                inputs := proto_test_cases, time_limit_ms := req.time_limit_ms,
                memory_limit_mb := req.memory_limit_mb }
          else
            MasterCommand.Compile
              { job_id := job_id, language := req.language,
                source_code := req.source_code, flags := req.compiler_flags }
        match getA st1.workers worker_id with
        | some _ =>
            (202, { job_id := job_id, message := "Job accepted and dispatched for execution" },
             st1, [(worker_id, cmd)])
        | none =>
            (202, { job_id := job_id, message := "Job accepted and dispatched for execution" },
             st1, [])

/-- master/src/http.rs `get_job_status` (247-286). -/
def get_job_status (st : AppState) (job_id : String) : Nat × StatusResponse :=
  match getA st.jobs job_id with
  | some job =>
    let state_str := match job.state with
      | JobState.Compiling => "compiling"
      | JobState.Executing pending_batches => if pending_batches > 0 then "executing" else "completed"
      | JobState.Completed => "completed"
    (200, { job_id := job_id, state := state_str,
            results := job.results.map toTestResultOutput,
            compiler_output := job.compiler_output, error := none })
  | none =>
    (404, { job_id := job_id, state := "not_found", results := [],
            compiler_output := none, error := some "Job not found" })

/-- Concrete one-worker registry used to exercise `submit_job`. -/
def c4_state : AppState :=
  { workers := [("w1", { sender := 1, cpu_cores := 4, total_ram_mb := 8192,
                         tags := ["can_compile"], cpu_load_percent := 5,
                         ram_usage_mb := 100, active_tasks := 0 })],
    jobs := [] }

/-- Concrete malformed submission: empty language and empty test-case list. -/
def c4_request : SubmitRequest :=
  { language := "", source_code := "print(1)", test_cases := [],
    compiler_flags := [], time_limit_ms := 2000, memory_limit_mb := 128 }

/-- Concrete job map holding job "j" that has already reached `Completed`
with an empty accumulated result set. -/
def c1_state : AppState :=
  { workers := [],
    jobs := [("j", { id := "j", language := "python", source_code := "print(1)",
                     total_test_cases := 1, results := [], state := JobState.Completed,
                     binary := none, compiler_output := none, responder := none,
                     test_cases := [{ id := "t1", input := "", expected_output := "1" }],
                     time_limit_ms := 2000, memory_limit_mb := 128 })] }

/-- A late batch result for the already-completed job "j". -/
def c1_message : BatchExecutionResult :=
  { job_id := "j", batch_id := "batch_1", worker_id := "w1",
    results := [{ test_id := "t1", status := "PASSED", stdout := "1", stderr := "",
                  time_ms := 3, memory_bytes := 0 }],
    metrics := none, system_error := "" }

/-- Concrete job map holding job "j" that has already reached `Completed`,
together with one idle registered worker. -/
def c5_state : AppState :=
  { workers := [("w1", { sender := 1, cpu_cores := 4, total_ram_mb := 8192,
                         tags := ["can_compile"], cpu_load_percent := 0,
                         ram_usage_mb := 0, active_tasks := 0 })],
    jobs := [("j", { id := "j", language := "cpp", source_code := "int main(){}",
                     total_test_cases := 1, results := [], state := JobState.Completed,
                     binary := some [1], compiler_output := some "old-output",
                     responder := none,
                     test_cases := [{ id := "t1", input := "", expected_output := "1" }],
                     time_limit_ms := 2000, memory_limit_mb := 128 })] }

/-- A stale successful compile result for the already-completed job "j". -/
def c5_message : CompileResult :=
  { job_id := "j", success := true, compiler_output := "new-output",
    binary_payload := [2, 2], duration_ms := 5 }

/-- Concrete job map holding job "j" in `Compiling` with a live responder. -/
def c3_state : AppState :=
  { workers := [],
    jobs := [("j", { id := "j", language := "cpp", source_code := "int main() { return x; }",
                     total_test_cases := 1, results := [], state := JobState.Compiling,
                     binary := none, compiler_output := none, responder := some 0,
                     test_cases := [{ id := "t1", input := "", expected_output := "1" }],
                     time_limit_ms := 2000, memory_limit_mb := 128 })] }

/-- A failed compile result for job "j". -/
def c3_message : CompileResult :=
  { job_id := "j", success := false, compiler_output := "error: x undeclared",
    binary_payload := [], duration_ms := 7 }

/-- The update applied to a job by a failed compile result (grpc.rs 142 and
156-159): compiler output recorded, phase `Completed`, all other fields —
including the result set and the responder — untouched. -/
def compile_failed_job (job : JobContext) (r : CompileResult) : JobContext :=
  { job with compiler_output := some r.compiler_output, state := JobState.Completed }

/-- The job of `c3_state` before the compile result arrives. -/
def c3_start_job : JobContext :=
  { id := "j", language := "cpp", source_code := "int main() { return x; }",
    total_test_cases := 1, results := [], state := JobState.Compiling,
    binary := none, compiler_output := none, responder := some 0,
    test_cases := [{ id := "t1", input := "", expected_output := "1" }],
    time_limit_ms := 2000, memory_limit_mb := 128 }

/-- Concrete job map holding job "j" in `Executing{1}` with a live responder. -/
def c6_state : AppState :=
  { workers := [],
    jobs := [("j", { id := "j", language := "python", source_code := "print(1)",
                     total_test_cases := 1, results := [], state := JobState.Executing 1,
                     binary := none, compiler_output := none, responder := some 0,
                     test_cases := [{ id := "t1", input := "", expected_output := "1" }],
                     time_limit_ms := 2000, memory_limit_mb := 128 })] }

/-- An aborted batch for job "j": non-empty `system_error`, no results. -/
def c6_message : BatchExecutionResult :=
  { job_id := "j", batch_id := "batch_1", worker_id := "w1", results := [],
    metrics := none, system_error := "Failed to create container: boom" }

/-- Unfolding `create_batches` on a non-empty list. -/
theorem create_batches_cons (l : List TestCase) (h : l ≠ []) :
    create_batches l = l.take BATCH_SIZE :: create_batches (l.drop BATCH_SIZE) := by
  rw [create_batches]
  exact dif_neg h

/-- Unfolding `create_batches` on the empty list. -/
theorem create_batches_nil : create_batches [] = [] := by
  rw [create_batches]
  exact dif_pos rfl

/-- Auxiliary induction (on a length bound) for the concat property. -/
theorem create_batches_flatten_aux :
    ∀ (n : Nat) (l : List TestCase), l.length ≤ n → (create_batches l).flatten = l := by
  intro n
  induction n with
  | zero =>
      intro l hl
      have : l = [] := List.eq_nil_of_length_eq_zero (Nat.le_zero.mp hl)
      subst this
      simp [create_batches_nil]
  | succ n ih =>
      intro l hl
      by_cases hnil : l = []
      · subst hnil; simp [create_batches_nil]
      · have hlen : (l.drop BATCH_SIZE).length ≤ n := by
          have hpos : 0 < l.length := List.length_pos.mpr hnil
          simp only [List.length_drop, BATCH_SIZE]
          omega
        rw [create_batches_cons l hnil, List.flatten_cons, ih _ hlen,
          List.take_append_drop]

/-- Auxiliary induction for the chunk-size bound. -/
theorem create_batches_size_aux :
    ∀ (n : Nat) (l : List TestCase), l.length ≤ n →
      ∀ c ∈ create_batches l, c.length ≤ BATCH_SIZE := by
  intro n
  induction n with
  | zero =>
      intro l hl c hc
      have : l = [] := List.eq_nil_of_length_eq_zero (Nat.le_zero.mp hl)
      subst this
      simp [create_batches_nil] at hc
  | succ n ih =>
      intro l hl c hc
      by_cases hnil : l = []
      · subst hnil; simp [create_batches_nil] at hc
      · have hlen : (l.drop BATCH_SIZE).length ≤ n := by
          have hpos : 0 < l.length := List.length_pos.mpr hnil
          simp only [List.length_drop, BATCH_SIZE]
          omega
        rw [create_batches_cons l hnil] at hc
        rcases List.mem_cons.mp hc with rfl | hmem
        · simp [List.length_take]
        · exact ih _ hlen c hmem

/-- Auxiliary induction: every chunk except possibly the last is full. -/
theorem create_batches_full_aux :
    ∀ (n : Nat) (l : List TestCase), l.length ≤ n →
      ∀ c ∈ (create_batches l).dropLast, c.length = BATCH_SIZE := by
  intro n
  induction n with
  | zero =>
      intro l hl c hc
      have : l = [] := List.eq_nil_of_length_eq_zero (Nat.le_zero.mp hl)
      subst this
      simp [create_batches_nil] at hc
  | succ n ih =>
      intro l hl c hc
      by_cases hnil : l = []
      · subst hnil; simp [create_batches_nil] at hc
      · have hpos : 0 < l.length := List.length_pos.mpr hnil
        have hlen : (l.drop BATCH_SIZE).length ≤ n := by
          simp only [List.length_drop, BATCH_SIZE]
          omega
        rw [create_batches_cons l hnil] at hc
        by_cases hrest : l.drop BATCH_SIZE = []
        · rw [hrest, create_batches_nil, List.dropLast_single] at hc
          simp at hc
        · have hrest2 : create_batches (l.drop BATCH_SIZE) ≠ [] := by
            rw [create_batches_cons _ hrest]
            exact List.cons_ne_nil _ _
          obtain ⟨c2, t2, hct⟩ := List.exists_cons_of_ne_nil hrest2
          rw [hct, List.dropLast_cons₂] at hc
          rcases List.mem_cons.mp hc with rfl | hmem
          · have hlong : BATCH_SIZE < l.length := by
              have : 0 < (l.drop BATCH_SIZE).length := List.length_pos.mpr hrest
              simp only [List.length_drop] at this
              omega
            simp [List.length_take]
            omega
          · exact ih _ hlen c (by rw [hct]; exact hmem)

/-- C8: `create_batches` is an order-preserving partition of its input into
chunks: every chunk has length at most 20, every chunk except possibly the
last has length exactly 20, and the concatenation of the chunks equals the
input test-case list. -/
theorem create_batches_partition (l : List TestCase) :
    (∀ c ∈ create_batches l, c.length ≤ 20) ∧
    (∀ c ∈ (create_batches l).dropLast, c.length = 20) ∧
    (create_batches l).flatten = l :=
  ⟨create_batches_size_aux l.length l (Nat.le_refl _),
   create_batches_full_aux l.length l (Nat.le_refl _),
   create_batches_flatten_aux l.length l (Nat.le_refl _)⟩

/-- Witness for C8 at a concrete 45-element input. -/
theorem create_batches_partition_witness :
    (create_batches (List.replicate 45 ({ id := "t", input := "i", expected_output := "o" } : TestCase))).flatten
      = List.replicate 45 ({ id := "t", input := "i", expected_output := "o" } : TestCase) :=
  (create_batches_partition _).2.2

/-- Refreshing the same entry twice with the same metrics is the one refresh. -/
theorem apply_heartbeat_entry_idem (hb : Heartbeat) (p : String × WorkerInfo) :
    apply_heartbeat_entry hb (apply_heartbeat_entry hb p) = apply_heartbeat_entry hb p := by
  rcases p with ⟨k, w⟩
  by_cases h : k = hb.worker_id <;> simp [apply_heartbeat_entry, h]

/-- Mapping the heartbeat refresh twice over the registry equals mapping once. -/
theorem map_apply_heartbeat_idem (hb : Heartbeat) (l : List (String × WorkerInfo)) :
    (l.map (apply_heartbeat_entry hb)).map (apply_heartbeat_entry hb)
      = l.map (apply_heartbeat_entry hb) := by
  induction l with
  | nil => rfl
  | cons p t ih => simp [apply_heartbeat_entry_idem, ih]

/-- If a key is absent, every entry fails the key test. -/
theorem getA_none_key {α : Type} :
    ∀ (l : List (String × α)) (k : String), getA l k = none → ∀ p ∈ l, p.1 ≠ k := by
  intro l
  induction l with
  | nil => intro k _ p hp; simp at hp
  | cons q t ih =>
      intro k h p hp
      by_cases hq : q.1 = k
      · simp [getA, hq] at h
      · rcases List.mem_cons.mp hp with rfl | hmem
        · exact hq
        · exact ih k (by simpa [getA, hq] using h) p hmem

/-- A map that only rewrites entries with an absent key is the identity. -/
theorem map_noop_of_absent {α : Type} (l : List (String × α)) (k : String)
    (f : String × α → String × α) (hf : ∀ p, p.1 ≠ k → f p = p)
    (h : getA l k = none) : l.map f = l := by
  induction l with
  | nil => rfl
  | cons p t ih =>
      have hp : p.1 ≠ k := getA_none_key _ _ h p (List.mem_cons_self p t)
      have ht : getA t k = none := by simpa [getA, hp] using h
      simp [hf p hp, ih ht]

/-- Lookup through the heartbeat refresh: the matching key sees the refreshed
record, every other key sees the old map. -/
theorem getA_map_heartbeat (hb : Heartbeat) (l : List (String × WorkerInfo)) (k : String) :
    getA (l.map (apply_heartbeat_entry hb)) k =
      if k = hb.worker_id then
        (getA l k).map fun w =>
          { w with cpu_load_percent := hb.cpu_load_percent,
                   ram_usage_mb := hb.ram_usage_mb,
                   active_tasks := hb.active_tasks }
      else getA l k := by
  induction l with
  | nil => by_cases h : k = hb.worker_id <;> simp [getA, h]
  | cons p t ih =>
      rcases p with ⟨pk, pv⟩
      by_cases hp : pk = hb.worker_id
      · by_cases hk : pk = k
        · subst hk
          simp [getA, apply_heartbeat_entry, hp]
        · have hne : ¬ k = hb.worker_id := fun hh => hk (hp.trans hh.symm)
          have hne2 : ¬ hb.worker_id = k := fun hh => hk (hp.trans hh)
          simp [getA, apply_heartbeat_entry, hp, hk, hne, hne2, ih]
      · by_cases hk : pk = k
        · subst hk
          have hne : ¬ pk = hb.worker_id := hp
          simp [getA, apply_heartbeat_entry, hp, hne]
        · simp [getA, apply_heartbeat_entry, hp, hk, ih]

/-- C9: heartbeat processing is idempotent and total on the registry:
applying the same `Heartbeat` twice leaves the registry as after one
application, and a `Heartbeat` whose `worker_id` has no registry entry
leaves the whole state unchanged. -/
theorem heartbeat_idempotent_total (st : AppState) (hb : Heartbeat) :
    handle_heartbeat (handle_heartbeat st hb) hb = handle_heartbeat st hb ∧
    (getA st.workers hb.worker_id = none → handle_heartbeat st hb = st) := by
  constructor
  · show AppState.mk ((st.workers.map (apply_heartbeat_entry hb)).map (apply_heartbeat_entry hb)) st.jobs
      = AppState.mk (st.workers.map (apply_heartbeat_entry hb)) st.jobs
    rw [map_apply_heartbeat_idem]
  · intro h
    show AppState.mk (st.workers.map (apply_heartbeat_entry hb)) st.jobs = st
    rw [map_noop_of_absent st.workers hb.worker_id (apply_heartbeat_entry hb)
      (fun p hp => by simp [apply_heartbeat_entry, hp]) h]

/-- Witness for C9: a heartbeat for an id absent from a concrete registry is a
no-op on the whole state. -/
theorem heartbeat_idempotent_total_witness :
    handle_heartbeat
        ({ workers := [("w1", { sender := 1, cpu_cores := 4, total_ram_mb := 8192, tags := ["can_compile"],
                                cpu_load_percent := 10, ram_usage_mb := 512, active_tasks := 1 })],
           jobs := [] } : AppState)
        ({ worker_id := "ghost", cpu_load_percent := 50, ram_usage_mb := 99, active_tasks := 7 } : Heartbeat)
      = ({ workers := [("w1", { sender := 1, cpu_cores := 4, total_ram_mb := 8192, tags := ["can_compile"],
                                cpu_load_percent := 10, ram_usage_mb := 512, active_tasks := 1 })],
           jobs := [] } : AppState) :=
  (heartbeat_idempotent_total _ _).2 (by decide)

/-- C10: processing a `Heartbeat` for a registered worker id mutates only that
entry's `cpu_load_percent`, `ram_usage_mb` and `active_tasks`; the entry's
`sender`, `cpu_cores`, `total_ram_mb` and `tags`, every other worker's entry,
and the entire job map are unchanged. -/
theorem heartbeat_frame (st : AppState) (hb : Heartbeat) (w : WorkerInfo)
    (h : getA st.workers hb.worker_id = some w) :
    (handle_heartbeat st hb).jobs = st.jobs ∧
    (∀ k, k ≠ hb.worker_id →
      getA (handle_heartbeat st hb).workers k = getA st.workers k) ∧
    getA (handle_heartbeat st hb).workers hb.worker_id =
      some { w with cpu_load_percent := hb.cpu_load_percent,
                    ram_usage_mb := hb.ram_usage_mb,
                    active_tasks := hb.active_tasks } := by
  refine ⟨rfl, ?_, ?_⟩
  · intro k hk
    show getA (st.workers.map (apply_heartbeat_entry hb)) k = getA st.workers k
    rw [getA_map_heartbeat, if_neg hk]
  · show getA (st.workers.map (apply_heartbeat_entry hb)) hb.worker_id = _
    rw [getA_map_heartbeat, if_pos rfl, h]
    rfl

/-- Witness for C10 at a concrete two-worker registry. -/
theorem heartbeat_frame_witness :
    getA (handle_heartbeat
        ({ workers := [("w1", { sender := 1, cpu_cores := 4, total_ram_mb := 8192, tags := ["can_compile"],
                                cpu_load_percent := 10, ram_usage_mb := 512, active_tasks := 1 }),
                       ("w2", { sender := 2, cpu_cores := 2, total_ram_mb := 4096, tags := [],
                                cpu_load_percent := 20, ram_usage_mb := 256, active_tasks := 0 })],
           jobs := [] } : AppState)
        ({ worker_id := "w2", cpu_load_percent := 75, ram_usage_mb := 300, active_tasks := 3 } : Heartbeat)).workers
      "w2"
      = some { sender := 2, cpu_cores := 2, total_ram_mb := 4096, tags := [],
               cpu_load_percent := 75, ram_usage_mb := 300, active_tasks := 3 } :=
  (heartbeat_frame _ _
    ({ sender := 2, cpu_cores := 2, total_ram_mb := 4096, tags := [],
       cpu_load_percent := 20, ram_usage_mb := 256, active_tasks := 0 }) (by decide)).2.2

/-- The min-by fold started from `some q` yields `q` or a list element. -/
theorem foldl_minStep_mem :
    ∀ (l : List (String × WorkerInfo)) (q : String × WorkerInfo),
      ∃ r, l.foldl minStep (some q) = some r ∧ (r = q ∨ r ∈ l) := by
  intro l
  induction l with
  | nil => intro q; exact ⟨q, rfl, Or.inl rfl⟩
  | cons p t ih =>
      intro q
      by_cases hc : p.2.cpu_load_percent < q.2.cpu_load_percent
      · obtain ⟨r, hr, hmem⟩ := ih p
        refine ⟨r, ?_, ?_⟩
        · simpa [minStep, hc] using hr
        · rcases hmem with rfl | hm
          · exact Or.inr (List.mem_cons_self _ _)
          · exact Or.inr (List.mem_cons_of_mem _ hm)
      · obtain ⟨r, hr, hmem⟩ := ih q
        refine ⟨r, ?_, ?_⟩
        · simpa [minStep, hc] using hr
        · rcases hmem with rfl | hm
          · exact Or.inl rfl
          · exact Or.inr (List.mem_cons_of_mem _ hm)

/-- On a non-empty registry, least-loaded selection returns a registered key. -/
theorem minByLoad_cons (p : String × WorkerInfo) (t : List (String × WorkerInfo)) :
    ∃ r, minByLoad (p :: t) = some r.1 ∧ r ∈ p :: t := by
  obtain ⟨r, hr, hmem⟩ := foldl_minStep_mem t p
  refine ⟨r, ?_, ?_⟩
  · simp [minByLoad, List.foldl_cons, minStep, hr]
  · rcases hmem with rfl | hm
    · exact List.mem_cons_self _ _
    · exact List.mem_cons_of_mem _ hm

/-- A key that has an entry in the list is found by `getA`. -/
theorem getA_isSome_of_mem {α : Type} :
    ∀ (l : List (String × α)) (r : String × α), r ∈ l → (getA l r.1).isSome := by
  intro l
  induction l with
  | nil => intro r hr; simp at hr
  | cons q t ih =>
      intro r hr
      by_cases hq : q.1 = r.1
      · simp [getA, hq]
      · rcases List.mem_cons.mp hr with rfl | hm
        · exact absurd rfl hq
        · simpa [getA, hq] using ih r hm

/-- `setA` at a present key makes the new value visible to `getA`. -/
theorem getA_setA_self {α : Type} :
    ∀ (l : List (String × α)) (k : String) (v : α), (getA l k).isSome →
      getA (setA l k v) k = some v := by
  intro l
  induction l with
  | nil => intro k v h; simp [getA] at h
  | cons q t ih =>
      intro k v h
      by_cases hq : q.1 = k
      · simp [getA, setA, hq]
      · simp only [setA, if_neg hq]
        simpa [getA, hq] using ih k v (by simpa [getA, hq] using h)

/-- Appending a fresh binding makes it visible to `getA`. -/
theorem getA_append_single {α : Type} :
    ∀ (l : List (String × α)) (k : String) (v : α), getA l k = none →
      getA (l ++ [(k, v)]) k = some v := by
  intro l
  induction l with
  | nil => intro k v _; simp [getA]
  | cons q t ih =>
      intro k v h
      by_cases hq : q.1 = k
      · simp [getA, hq] at h
      · simpa [getA, hq] using ih k v (by simpa [getA, hq] using h)

/-- `insA` makes the inserted value visible to `getA`. -/
theorem getA_insA_self {α : Type} (l : List (String × α)) (k : String) (v : α) :
    getA (insA l k v) k = some v := by
  unfold insA
  by_cases h : (getA l k).isSome
  · rw [if_pos h]
    exact getA_setA_self l k v h
  · rw [if_neg h]
    exact getA_append_single l k v (Option.not_isSome_iff_eq_none.mp h)

/-- C7: with an empty worker registry, `submit_job` returns 503 with the
message "No workers available" and leaves the job map (whole state)
unchanged, so a status query for the returned fresh job id is `not_found`. -/
theorem submit_no_workers_503 (st : AppState) (job_id : String) (req : SubmitRequest)
    (hw : st.workers = []) (hf : getA st.jobs job_id = none) :
    (submit_job st job_id req).1 = 503 ∧
    (submit_job st job_id req).2.1.message = "No workers available" ∧
    (submit_job st job_id req).2.2.1 = st ∧
    (get_job_status (submit_job st job_id req).2.2.1 job_id).1 = 404 ∧
    (get_job_status (submit_job st job_id req).2.2.1 job_id).2.state = "not_found" := by
  have hempty : st.workers.isEmpty = true := by rw [hw]; rfl
  have hsub : submit_job st job_id req
      = (503, { job_id := job_id, message := "No workers available" }, st, []) := by
    simp [submit_job, hempty]
  rw [hsub]
  refine ⟨rfl, rfl, rfl, ?_, ?_⟩ <;> simp [get_job_status, hf]

/-- Witness for C7 at the concrete empty state. -/
theorem submit_no_workers_503_witness :
    (submit_job ({ workers := [], jobs := [] } : AppState) "fresh-id"
        ({ language := "python", source_code := "print(1)",
           test_cases := [{ id := "t1", input := "", expected_output := "1" }],
           compiler_flags := [], time_limit_ms := 2000, memory_limit_mb := 128 })).1 = 503 ∧
    (get_job_status (submit_job ({ workers := [], jobs := [] } : AppState) "fresh-id"
        ({ language := "python", source_code := "print(1)",
           test_cases := [{ id := "t1", input := "", expected_output := "1" }],
           compiler_flags := [], time_limit_ms := 2000, memory_limit_mb := 128 })).2.2.1
      "fresh-id").2.state = "not_found" := by
  have h := submit_no_workers_503 ({ workers := [], jobs := [] } : AppState) "fresh-id"
    ({ language := "python", source_code := "print(1)",
       test_cases := [{ id := "t1", input := "", expected_output := "1" }],
       compiler_flags := [], time_limit_ms := 2000, memory_limit_mb := 128 }) rfl rfl
  exact ⟨h.1, h.2.2.2.2⟩

/-- C4 counterexample: with one registered worker, a submission whose language
is empty and whose test-case list is empty is not refused with a 4xx status:
`submit_job` answers 202, creates the job, and dispatches a task. -/
theorem submit_empty_request_not_refused :
    (submit_job c4_state "job-1" c4_request).1 = 202 ∧
    ¬ (400 ≤ (submit_job c4_state "job-1" c4_request).1 ∧
        (submit_job c4_state "job-1" c4_request).1 < 500) ∧
    getA (submit_job c4_state "job-1" c4_request).2.2.1.jobs "job-1" ≠ none ∧
    (submit_job c4_state "job-1" c4_request).2.2.2 ≠ [] := by
  decide

/-- C4 amended: `submit_job` performs no emptiness validation at all.  For any
request — in particular one with an empty language or an empty test-case
list — whenever the worker registry is non-empty the request is accepted
with status 202, a job record is created under the fresh id, and a worker
task is dispatched; only the empty-registry 503 path refuses a submission. -/
theorem submit_no_validation (st : AppState) (job_id : String) (req : SubmitRequest)
    (hw : st.workers ≠ []) :
    (submit_job st job_id req).1 = 202 ∧
    getA (submit_job st job_id req).2.2.1.jobs job_id ≠ none ∧
    (submit_job st job_id req).2.2.2 ≠ [] := by
  obtain ⟨p, t, hws⟩ : ∃ p t, st.workers = p :: t := by
    cases h : st.workers with
    | nil => exact absurd h hw
    | cons p t => exact ⟨p, t, rfl⟩
  have hempty : st.workers.isEmpty = false := by rw [hws]; rfl
  obtain ⟨r, hmin, hmem⟩ := minByLoad_cons p t
  have hmin2 : minByLoad st.workers = some r.1 := by rw [hws]; exact hmin
  have hsome : (getA st.workers r.1).isSome := by
    rw [hws]; exact getA_isSome_of_mem _ r hmem
  obtain ⟨wi, hwi⟩ := Option.isSome_iff_exists.mp hsome
  simp only [submit_job, hempty, Bool.false_eq_true, if_false, hmin2, hwi]
  simp [getA_insA_self]

/-- Witness for the amended C4 at the concrete one-worker registry. -/
theorem submit_no_validation_witness :
    (submit_job c4_state "job-2" c4_request).1 = 202 ∧
    getA (submit_job c4_state "job-2" c4_request).2.2.1.jobs "job-2" ≠ none ∧
    (submit_job c4_state "job-2" c4_request).2.2.2 ≠ [] :=
  submit_no_validation c4_state "job-2" c4_request (by decide)

/-- C1 evaluated at the failing input: processing a `BatchExecutionResult`
for a job already in `Completed` is not a discard — the handler appends the
message's results to the job's result set (here [] grows to a singleton),
while the phase stays `Completed`. -/
theorem completed_job_still_appends_results :
    (getA c1_state.jobs "j").map JobContext.results = some [] ∧
    (getA (handle_batch_result c1_state c1_message).1.jobs "j").map JobContext.results
      = some [{ test_id := "t1", status := "PASSED", stdout := "1", stderr := "",
                time_ms := 3, memory_bytes := 0 }] ∧
    (getA (handle_batch_result c1_state c1_message).1.jobs "j").map JobContext.state
      = some JobState.Completed := by
  decide

/-- C5 evaluated at the failing input: a `CompileResult` for a job that is
not in `Compiling` (here: already `Completed`) is not discarded — the handler
overwrites `compiler_output` and the stored binary, resurrects the phase to
`Executing{1}`, and dispatches an execute task to worker "w1". -/
theorem stale_compile_result_processed :
    (getA (handle_compile_result c5_state c5_message).1.jobs "j").map
        (fun j => (j.state, j.binary, j.compiler_output))
      = some (JobState.Executing 1, some [2, 2], some "new-output") ∧
    (handle_compile_result c5_state c5_message).2.1
      = [("w1", MasterCommand.Execute
          { job_id := "j", batch_id := "batch_1", language := "cpp",
            payload := some (ExecPayload.BinaryArtifact [2, 2]),
            inputs := [{ id := "t1", input := "", expected_output := "1" }],
            time_limit_ms := 2000, memory_limit_mb := 128 })] := by
  decide

/-- C3 counterexample: on `CompileResult{success=false}` for the `Compiling`
job "j", the handler does not fire the one-shot completion signal: no
`FinalResponse` is emitted and the responder is not consumed (it stays in
place on the job). -/
theorem compile_failure_fires_no_signal :
    ¬ ((handle_compile_result c3_state c3_message).2.2 ≠ [] ∨
       (getA (handle_compile_result c3_state c3_message).1.jobs "j").map JobContext.responder
         = some none) := by
  decide

/-- C3 amended: for a job in `Compiling`, processing `CompileResult` with
`success = false` sets the phase to `Completed` and records the compiler
output on the job, leaving the result set, binary and responder untouched —
but it does not fire the completion signal: no `FinalResponse` is emitted and
the one-shot responder is not consumed. -/
theorem compile_failure_completes_silently (st : AppState) (r : CompileResult)
    (job : JobContext) (hj : getA st.jobs r.job_id = some job)
    (hc : job.state = JobState.Compiling) (hs : r.success = false) :
    (handle_compile_result st r).1.jobs
        = setA st.jobs r.job_id (compile_failed_job job r) ∧
    (handle_compile_result st r).1.workers = st.workers ∧
    (handle_compile_result st r).2.1 = [] ∧
    (handle_compile_result st r).2.2 = [] := by
  simp only [handle_compile_result, hj, hs, Bool.false_eq_true, if_false,
    compile_failed_job]
  exact ⟨trivial, trivial, trivial, trivial⟩

/-- Witness for the amended C3 at a concrete `Compiling` job. -/
theorem compile_failure_completes_silently_witness :
    (handle_compile_result c3_state c3_message).1.jobs
        = setA c3_state.jobs "j" (compile_failed_job c3_start_job c3_message) ∧
    (handle_compile_result c3_state c3_message).2.2 = [] :=
  ⟨(compile_failure_completes_silently c3_state c3_message c3_start_job (by decide) rfl rfl).1,
   (compile_failure_completes_silently c3_state c3_message c3_start_job (by decide) rfl rfl).2.2.2⟩

/-- C6 counterexample: after processing a batch result with non-empty
`system_error`, the status response's `error` field does not surface it — it
is `none`, and even the fired completion response carries `error = none`.
(The counter is still decremented: the job completes.) -/
theorem system_error_not_surfaced :
    (get_job_status (handle_batch_result c6_state c6_message).1 "j").2.error = none ∧
    ¬ ((get_job_status (handle_batch_result c6_state c6_message).1 "j").2.error
        = some "Failed to create container: boom") ∧
    (handle_batch_result c6_state c6_message).2.map FinalResponse.error = [none] ∧
    (getA (handle_batch_result c6_state c6_message).1.jobs "j").map JobContext.state
      = some JobState.Completed := by
  decide

/-- C6 amended: a `BatchExecutionResult` with non-empty `system_error` for a
job in `Executing{n}` still decrements the batch counter — the job moves to
`Executing{n-1}`, or to `Completed` when the counter reaches zero — but the
error is only logged, never recorded: `JobContext` stores no error and the
status response's `error` field is `none` for any present job. -/
theorem batch_system_error_decrements_unrecorded (st : AppState) (r : BatchExecutionResult)
    (job : JobContext) (n : Nat) (hj : getA st.jobs r.job_id = some job)
    (hst : job.state = JobState.Executing n) (he : r.system_error ≠ "") :
    ((getA (handle_batch_result st r).1.jobs r.job_id).map JobContext.state
      = some (if n - 1 = 0 then JobState.Completed else JobState.Executing (n - 1))) ∧
    (get_job_status (handle_batch_result st r).1 r.job_id).2.error = none := by
  have hsome : (getA st.jobs r.job_id).isSome := by rw [hj]; rfl
  have hset : ∀ v : JobContext, getA (setA st.jobs r.job_id v) r.job_id = some v :=
    fun v => getA_setA_self st.jobs r.job_id v hsome
  simp only [handle_batch_result, hj, hst]
  by_cases hn : n - 1 = 0
  · cases hr : job.responder with
    | some tok => simp [hn, hr, hset, get_job_status]
    | none => simp [hn, hr, hset, get_job_status]
  · simp [hn, hset, get_job_status]

/-- Witness for the amended C6 at a concrete `Executing{1}` job. -/
theorem batch_system_error_decrements_unrecorded_witness :
    ((getA (handle_batch_result c6_state c6_message).1.jobs "j").map JobContext.state
      = some JobState.Completed) ∧
    (get_job_status (handle_batch_result c6_state c6_message).1 "j").2.error = none := by
  have h := batch_system_error_decrements_unrecorded c6_state c6_message
    ({ id := "j", language := "python", source_code := "print(1)",
       total_test_cases := 1, results := [], state := JobState.Executing 1,
       binary := none, compiler_output := none, responder := some 0,
       test_cases := [{ id := "t1", input := "", expected_output := "1" }],
       time_limit_ms := 2000, memory_limit_mb := 128 }) 1 (by decide) rfl (by decide)
  exact ⟨h.1, h.2⟩

/-- C2: first-match-wins verdict assignment of `execute_batch`: a tripped
wall-clock timeout yields TLE; otherwise exit code 137, or stdout containing
"Killed", or stderr containing "Killed" or "Out of memory", yields MLE;
otherwise a non-zero exit code yields RE; otherwise the verdict is PASSED
exactly when the trimmed stdout equals the trimmed expected output and FAILED
otherwise — so leading/trailing whitespace never decides PASSED vs FAILED. -/
theorem verdict_assignment (tc : TestCase) (elapsed_ms exit_code : Int)
    (stdout stderr : String) :
    (judge_test_case tc elapsed_ms (RunOutcome.err timeout_error_message)).status = "TLE" ∧
    ((exit_code == 137 || strContains stdout "Killed" || strContains stderr "Killed"
        || strContains stderr "Out of memory") = true →
      (judge_test_case tc elapsed_ms (RunOutcome.ok exit_code stdout stderr)).status = "MLE") ∧
    ((exit_code == 137 || strContains stdout "Killed" || strContains stderr "Killed"
        || strContains stderr "Out of memory") = false → exit_code ≠ 0 →
      (judge_test_case tc elapsed_ms (RunOutcome.ok exit_code stdout stderr)).status = "RE") ∧
    ((exit_code == 137 || strContains stdout "Killed" || strContains stderr "Killed"
        || strContains stderr "Out of memory") = false → exit_code = 0 →
      ((judge_test_case tc elapsed_ms (RunOutcome.ok exit_code stdout stderr)).status = "PASSED"
        ↔ rustTrim stdout = rustTrim tc.expected_output)) ∧
    ((exit_code == 137 || strContains stdout "Killed" || strContains stderr "Killed"
        || strContains stderr "Out of memory") = false → exit_code = 0 →
      (judge_test_case tc elapsed_ms (RunOutcome.ok exit_code stdout stderr)).status = "PASSED" ∨
      (judge_test_case tc elapsed_ms (RunOutcome.ok exit_code stdout stderr)).status = "FAILED") := by
  have htl : strContains timeout_error_message "timeout" = true := by decide
  refine ⟨by simp [judge_test_case, htl], ?_, ?_, ?_, ?_⟩
  · intro h
    simp [judge_test_case, h]
  · intro h hz
    simp [judge_test_case, h, hz]
  · intro h hz
    subst hz
    rw [show ((0 : Int) == 137) = false by decide, Bool.false_or] at h
    by_cases ht : rustTrim stdout = rustTrim tc.expected_output
    · simp [judge_test_case, h, ht]
    · simp [judge_test_case, h, ht]
  · intro h hz
    subst hz
    rw [show ((0 : Int) == 137) = false by decide, Bool.false_or] at h
    by_cases ht : rustTrim stdout = rustTrim tc.expected_output
    · exact Or.inl (by simp [judge_test_case, h, ht])
    · exact Or.inr (by simp [judge_test_case, h, ht])

/-- Witness for C2: concrete MLE by exit code 137 and concrete trim-equal
PASSED, via the claim theorem. -/
theorem verdict_assignment_witness :
    (judge_test_case { id := "t", input := "1", expected_output := "42" } 5
        (RunOutcome.ok 137 "" "")).status = "MLE" ∧
    ((judge_test_case { id := "t", input := "1", expected_output := "42" } 5
        (RunOutcome.ok 0 " 42 \n" "")).status = "PASSED"
      ↔ rustTrim " 42 \n" = rustTrim "42") :=
  ⟨(verdict_assignment { id := "t", input := "1", expected_output := "42" } 5 137 "" "").2.1
      (by decide),
   (verdict_assignment { id := "t", input := "1", expected_output := "42" } 5 0 " 42 \n" "").2.2.2.1
      (by decide) (by decide)⟩
